import Mathlib

/-!
Verification of the HealthAI Risk & Population Scoring Engine.

The definitions below are a shallow embedding of the Python sources:
numeric patient fields become rationals, the sigmoid normalizer is a real
function built on Real.exp, and every threshold ladder is translated
branch for branch from the source. Theorems settle the behavioural claims
about the engine (risk percentages, tier classification, monotonicity,
validation gating, and the population aggregation layer).
-/

namespace HealthAI

/-- A patient intake record, the input of every scorer
(the fields of the patient_data dictionary that the engine reads). -/
structure PatientRecord where
  age : ℚ
  gender : String
  bmi : ℚ
  systolic_bp : ℚ
  diastolic_bp : ℚ
  glucose : ℚ
  cholesterol : ℚ
  hdl : ℚ
  ldl : ℚ
  smoking : String
  exercise_days : ℚ
  alcohol_drinks : ℚ
  family_diabetes : Bool
  family_heart_disease : Bool
  family_hypertension : Bool

/-! ### Diabetes scorer (risk_calculator.py, calculate_diabetes_risk) -/

/-- Age factor of the diabetes scorer. -/
def diabetes_age_risk (age : ℚ) : ℚ :=
  if age ≥ 65 then 3 else if age ≥ 45 then 2 else if age ≥ 35 then 1 else 0

/-- BMI factor of the diabetes scorer. -/
def diabetes_bmi_risk (bmi : ℚ) : ℚ :=
  if bmi ≥ 35 then 4 else if bmi ≥ 30 then 3 else if bmi ≥ 25 then 2 else 0

/-- Glucose factor of the diabetes scorer. -/
def diabetes_glucose_risk (glucose : ℚ) : ℚ :=
  if glucose ≥ 126 then 5 else if glucose ≥ 100 then 3 else if glucose ≥ 90 then 1 else 0

/-- Blood-pressure factor of the diabetes scorer. -/
def diabetes_bp_risk (systolic : ℚ) : ℚ :=
  if systolic ≥ 140 then 2 else if systolic ≥ 130 then 1.5 else if systolic ≥ 120 then 1 else 0

/-- Exercise factor of the diabetes scorer. -/
def diabetes_exercise_risk (exercise_days : ℚ) : ℚ :=
  if exercise_days < 2 then 2 else if exercise_days < 4 then 1 else 0

/-- Smoking factor of the diabetes scorer. -/
def diabetes_smoking_risk (smoking : String) : ℚ :=
  if smoking = "Current" then 2.5 else if smoking = "Former" then 1 else 0

/-- Family-history factor of the diabetes scorer. -/
def diabetes_family_risk (family_diabetes : Bool) : ℚ :=
  if family_diabetes then 3 else 0

/-- HDL factor of the diabetes scorer. -/
def diabetes_hdl_risk (hdl : ℚ) : ℚ :=
  if hdl < 35 then 2 else if hdl < 40 then 1 else 0

/-- Diabetes total score: the sum of the eight factor contributions. -/
def diabetes_total_score (p : PatientRecord) : ℚ :=
  diabetes_age_risk p.age + diabetes_bmi_risk p.bmi + diabetes_glucose_risk p.glucose +
    diabetes_bp_risk p.systolic_bp + diabetes_exercise_risk p.exercise_days +
    diabetes_smoking_risk p.smoking + diabetes_family_risk p.family_diabetes +
    diabetes_hdl_risk p.hdl

/-! ### Heart-disease scorer (risk_calculator.py, calculate_heart_disease_risk) -/

/-- Age and gender factor of the heart-disease scorer: the Male branch, and
one shared branch for every other gender value. -/
def hd_age_gender_risk (gender : String) (age : ℚ) : ℚ :=
  if gender = "Male" then
    if age ≥ 55 then 3 else if age ≥ 45 then 2 else 0
  else
    if age ≥ 65 then 3 else if age ≥ 55 then 2 else 0

/-- Total-cholesterol factor of the heart-disease scorer. -/
def hd_cholesterol_risk (cholesterol : ℚ) : ℚ :=
  if cholesterol ≥ 240 then 3 else if cholesterol ≥ 200 then 2 else 0

/-- LDL factor of the heart-disease scorer. -/
def hd_ldl_risk (ldl : ℚ) : ℚ :=
  if ldl ≥ 160 then 3 else if ldl ≥ 130 then 2 else if ldl ≥ 100 then 1 else 0

/-- HDL factor of the heart-disease scorer; at least 60 is protective. -/
def hd_hdl_risk (hdl : ℚ) : ℚ :=
  if hdl < 35 then 3 else if hdl < 40 then 2 else if hdl ≥ 60 then -1 else 0

/-- Blood-pressure factor of the heart-disease scorer. -/
def hd_bp_risk (systolic : ℚ) : ℚ :=
  if systolic ≥ 160 then 4 else if systolic ≥ 140 then 3 else if systolic ≥ 130 then 2
    else if systolic ≥ 120 then 1 else 0

/-- Smoking factor of the heart-disease scorer. -/
def hd_smoking_risk (smoking : String) : ℚ :=
  if smoking = "Current" then 4 else if smoking = "Former" then 1.5 else 0

/-- Glucose (diabetes proxy) factor of the heart-disease scorer. -/
def hd_glucose_risk (glucose : ℚ) : ℚ :=
  if glucose ≥ 126 then 3 else if glucose ≥ 100 then 1.5 else 0

/-- Family-history factor of the heart-disease scorer. -/
def hd_family_risk (family_heart_disease : Bool) : ℚ :=
  if family_heart_disease then 2.5 else 0

/-- BMI factor of the heart-disease scorer. -/
def hd_bmi_risk (bmi : ℚ) : ℚ :=
  if bmi ≥ 30 then 2 else if bmi ≥ 25 then 1 else 0

/-- Exercise factor of the heart-disease scorer; 5 or more days is protective. -/
def hd_exercise_risk (exercise_days : ℚ) : ℚ :=
  if exercise_days ≥ 5 then -1 else if exercise_days ≥ 3 then -0.5
    else if exercise_days < 2 then 1.5 else 0

/-- Heart-disease total score: the sum of the ten factor contributions. -/
def heart_total_score (p : PatientRecord) : ℚ :=
  hd_age_gender_risk p.gender p.age + hd_cholesterol_risk p.cholesterol +
    hd_ldl_risk p.ldl + hd_hdl_risk p.hdl + hd_bp_risk p.systolic_bp +
    hd_smoking_risk p.smoking + hd_glucose_risk p.glucose +
    hd_family_risk p.family_heart_disease + hd_bmi_risk p.bmi +
    hd_exercise_risk p.exercise_days

/-! ### Hypertension scorer (risk_calculator.py, calculate_hypertension_risk) -/

/-- Current blood-pressure status factor of the hypertension scorer. -/
def ht_bp_risk (systolic diastolic : ℚ) : ℚ :=
  if systolic ≥ 140 ∨ diastolic ≥ 90 then 5
    else if systolic ≥ 130 ∨ diastolic ≥ 80 then 3
    else if systolic ≥ 120 then 1.5 else 0

/-- Age factor of the hypertension scorer. -/
def ht_age_risk (age : ℚ) : ℚ :=
  if age ≥ 65 then 3 else if age ≥ 55 then 2 else if age ≥ 45 then 1 else 0

/-- BMI factor of the hypertension scorer. -/
def ht_bmi_risk (bmi : ℚ) : ℚ :=
  if bmi ≥ 35 then 3.5 else if bmi ≥ 30 then 2.5 else if bmi ≥ 25 then 1.5 else 0

/-- Alcohol factor of the hypertension scorer. -/
def ht_alcohol_risk (alcohol_drinks : ℚ) : ℚ :=
  if alcohol_drinks > 14 then 2 else if alcohol_drinks > 7 then 1 else 0

/-- Smoking factor of the hypertension scorer. -/
def ht_smoking_risk (smoking : String) : ℚ :=
  if smoking = "Current" then 2.5 else if smoking = "Former" then 1 else 0

/-- Family-history factor of the hypertension scorer. -/
def ht_family_risk (family_hypertension : Bool) : ℚ :=
  if family_hypertension then 2.5 else 0

/-- Exercise factor of the hypertension scorer; 3 or more days is protective. -/
def ht_exercise_risk (exercise_days : ℚ) : ℚ :=
  if exercise_days ≥ 5 then -1.5 else if exercise_days ≥ 3 then -1
    else if exercise_days < 2 then 1.5 else 0

/-- Glucose factor of the hypertension scorer. -/
def ht_glucose_risk (glucose : ℚ) : ℚ :=
  if glucose ≥ 126 then 2 else if glucose ≥ 100 then 1 else 0

/-- Hypertension total score: the sum of the eight factor contributions. -/
def hypertension_total_score (p : PatientRecord) : ℚ :=
  ht_bp_risk p.systolic_bp p.diastolic_bp + ht_age_risk p.age + ht_bmi_risk p.bmi +
    ht_alcohol_risk p.alcohol_drinks + ht_smoking_risk p.smoking +
    ht_family_risk p.family_hypertension + ht_exercise_risk p.exercise_days +
    ht_glucose_risk p.glucose

/-! ### Sigmoid normalizer and risk classifier -/

/-- The sigmoid transform of risk_calculator.py: raw score to percentage. -/
noncomputable def sigmoid_transform (score : ℝ) (scale : ℝ) : ℝ :=
  100 / (1 + Real.exp (-score / scale))

/-- The risk-level classifier shared by the three scorers
(thresholds 70 for High and 40 for Medium). -/
noncomputable def risk_level_of (pct : ℝ) : String :=
  if pct ≥ 70 then "High" else if pct ≥ 40 then "Medium" else "Low"

/-- Diabetes risk percentage: sigmoid of the total score at scale 8. -/
noncomputable def diabetes_risk_percentage (p : PatientRecord) : ℝ :=
  sigmoid_transform ((diabetes_total_score p : ℚ) : ℝ) 8

/-- Diabetes risk level. -/
noncomputable def diabetes_risk_level (p : PatientRecord) : String :=
  risk_level_of (diabetes_risk_percentage p)

/-- Heart-disease risk percentage: sigmoid of the total score at scale 10. -/
noncomputable def heart_risk_percentage (p : PatientRecord) : ℝ :=
  sigmoid_transform ((heart_total_score p : ℚ) : ℝ) 10

/-- Heart-disease risk level. -/
noncomputable def heart_risk_level (p : PatientRecord) : String :=
  risk_level_of (heart_risk_percentage p)

/-- Hypertension risk percentage: sigmoid of the total score at scale 8. -/
noncomputable def hypertension_risk_percentage (p : PatientRecord) : ℝ :=
  sigmoid_transform ((hypertension_total_score p : ℚ) : ℝ) 8

/-- Hypertension risk level. -/
noncomputable def hypertension_risk_level (p : PatientRecord) : String :=
  risk_level_of (hypertension_risk_percentage p)

/-- One condition assessment as returned by each calculate_*_risk method. -/
structure ConditionAssessment where
  total_score : ℚ
  risk_percentage : ℝ
  risk_level : String

/-- The combined result of calculate_all_risks. -/
structure RiskAssessment where
  diabetes : ConditionAssessment
  heart_disease : ConditionAssessment
  hypertension : ConditionAssessment

/-- calculate_all_risks: the three condition assessments for one patient. -/
noncomputable def calculate_all_risks (p : PatientRecord) : RiskAssessment :=
  { diabetes := ⟨diabetes_total_score p, diabetes_risk_percentage p, diabetes_risk_level p⟩
    heart_disease := ⟨heart_total_score p, heart_risk_percentage p, heart_risk_level p⟩
    hypertension :=
      ⟨hypertension_total_score p, hypertension_risk_percentage p, hypertension_risk_level p⟩ }

/-! ### Validation (utils.py, validate_health_metrics) and the app gate -/

/-- The result dictionary returned by validate_health_metrics. -/
structure ValidationResult where
  valid : Bool
  message : String

/-- validate_health_metrics from utils.py, check for check in source order. -/
def validate_health_metrics (p : PatientRecord) : ValidationResult :=
  if p.age < 18 ∨ p.age > 120 then
    ⟨false, "Age must be between 18 and 120 years"⟩
  else if p.bmi < 10 ∨ p.bmi > 100 then
    ⟨false, "BMI values appear to be outside normal range (10-100)"⟩
  else if p.systolic_bp < 70 ∨ p.systolic_bp > 250 then
    ⟨false, "Systolic blood pressure must be between 70-250 mmHg"⟩
  else if p.diastolic_bp < 40 ∨ p.diastolic_bp > 150 then
    ⟨false, "Diastolic blood pressure must be between 40-150 mmHg"⟩
  else if p.systolic_bp ≤ p.diastolic_bp then
    ⟨false, "Systolic pressure must be higher than diastolic pressure"⟩
  else if p.glucose < 50 ∨ p.glucose > 500 then
    ⟨false, "Glucose levels must be between 50-500 mg/dL"⟩
  else if p.cholesterol < 100 ∨ p.cholesterol > 500 then
    ⟨false, "Total cholesterol must be between 100-500 mg/dL"⟩
  else if p.hdl < 20 ∨ p.hdl > 150 then
    ⟨false, "HDL cholesterol must be between 20-150 mg/dL"⟩
  else if p.ldl < 50 ∨ p.ldl > 300 then
    ⟨false, "LDL cholesterol must be between 50-300 mg/dL"⟩
  else if |p.cholesterol - (p.hdl + p.ldl)| > 50 then
    ⟨false, "Total cholesterol doesn't match HDL + LDL values (approximate check)"⟩
  else
    ⟨true, ""⟩

/-- The submission gate of app.py (main): a record is scored only when
validate_health_metrics accepts it, otherwise no assessment is produced. -/
noncomputable def submit_patient (p : PatientRecord) : Option RiskAssessment :=
  if (validate_health_metrics p).valid then some (calculate_all_risks p) else none

/-! ### Population analytics (app.py, display_population_analytics) -/

/-- The overall risk-tier label of one row of the population table: the
maximum of the three risk percentages put through the fixed thresholds. -/
noncomputable def overall_risk_label (d h ht : ℝ) : String :=
  if max (max d h) ht ≥ 70 then "High"
    else if max (max d h) ht ≥ 40 then "Medium" else "Low"

/-- The age_group column of app.py: pd.cut with bins [0, 30, 50, 70, 100]
and default right-closed intervals, so a band is (lo, hi]; an age outside
(0, 100] gets no band (pd.cut yields NaN there). -/
def age_group (age : ℚ) : Option String :=
  if 0 < age ∧ age ≤ 30 then some "<30"
    else if 30 < age ∧ age ≤ 50 then some "30-50"
    else if 50 < age ∧ age ≤ 70 then some "50-70"
    else if 70 < age ∧ age ≤ 100 then some "70+"
    else none

/-- Modelled from the spec: the four fixed age bands of the population
aggregator, left-inclusive except the open-ended top band, as the spec and
the band labels of app.py describe them. -/
def age_group_spec (age : ℚ) : String :=
  if age < 30 then "<30" else if age < 50 then "30-50"
    else if age < 70 then "50-70" else "70+"

/-- A fixed in-range record used to instantiate universally quantified
theorems at a concrete input. -/
def sample_patient : PatientRecord :=
  { age := 50, gender := "Female", bmi := 27, systolic_bp := 128, diastolic_bp := 82
    glucose := 105, cholesterol := 210, hdl := 48, ldl := 140, smoking := "Never"
    exercise_days := 3, alcohol_drinks := 2, family_diabetes := false
    family_heart_disease := true, family_hypertension := false }

/-- The boundary test vector of the spec: age 65, BMI 35, glucose 126,
systolic 140, no exercise, current smoker, family diabetes history, HDL 30
(the remaining fields are arbitrary in-range values the diabetes scorer
never reads). -/
def boundary_patient : PatientRecord :=
  { age := 65, gender := "Female", bmi := 35, systolic_bp := 140, diastolic_bp := 85
    glucose := 126, cholesterol := 200, hdl := 30, ldl := 150, smoking := "Current"
    exercise_days := 0, alcohol_drinks := 0, family_diabetes := true
    family_heart_disease := false, family_hypertension := false }

/-! ### Helper lemmas about the normalizer and the classifier -/

lemma diabetes_glucose_risk_mono : Monotone diabetes_glucose_risk := by
  intro a b hab
  unfold diabetes_glucose_risk
  split_ifs <;> linarith

lemma sigmoid_mem (s c : ℝ) : 0 < sigmoid_transform s c ∧ sigmoid_transform s c < 100 := by
  have he : 0 < Real.exp (-s / c) := Real.exp_pos _
  constructor
  · unfold sigmoid_transform
    positivity
  · unfold sigmoid_transform
    rw [div_lt_iff₀ (by linarith)]
    nlinarith

lemma risk_level_of_spec (x : ℝ) :
    (risk_level_of x = "High" ↔ 70 ≤ x) ∧
      (risk_level_of x = "Medium" ↔ 40 ≤ x ∧ x < 70) ∧
      (risk_level_of x = "Low" ↔ x < 40) := by
  unfold risk_level_of
  split_ifs with h1 h2
  · exact ⟨iff_of_true rfl h1, iff_of_false (by decide) (fun hm => by linarith [hm.2]),
      iff_of_false (by decide) (fun hl => by linarith)⟩
  · push_neg at h1
    exact ⟨iff_of_false (by decide) (fun hh => by linarith), iff_of_true rfl ⟨h2, h1⟩,
      iff_of_false (by decide) (fun hl => by linarith)⟩
  · push_neg at h1 h2
    exact ⟨iff_of_false (by decide) (fun hh => by linarith),
      iff_of_false (by decide) (fun hm => by linarith [hm.1]), iff_of_true rfl h2⟩

lemma sigmoid_ge_fifty (s c : ℝ) (hs : 0 ≤ s) (hc : 0 < c) : 50 ≤ sigmoid_transform s c := by
  unfold sigmoid_transform
  have he : 0 < Real.exp (-s / c) := Real.exp_pos _
  have h0 : -s / c ≤ 0 := div_nonpos_iff.mpr (Or.inr ⟨by linarith, by linarith⟩)
  have h1 : Real.exp (-s / c) ≤ 1 := Real.exp_le_one_iff.mpr h0
  rw [le_div_iff₀ (by linarith)]
  nlinarith

/-! ### Claims -/

/-- Claim C1: for every patient record and each of the three conditions, the
risk percentage lies in [0, 100) and the risk level agrees with the fixed
thresholds: High iff the percentage is at least 70, Medium iff it is in
[40, 70), Low iff it is below 40. -/
theorem C1_percentages_and_levels (p : PatientRecord) :
    (0 ≤ diabetes_risk_percentage p ∧ diabetes_risk_percentage p < 100 ∧
      (diabetes_risk_level p = "High" ↔ 70 ≤ diabetes_risk_percentage p) ∧
      (diabetes_risk_level p = "Medium" ↔
        40 ≤ diabetes_risk_percentage p ∧ diabetes_risk_percentage p < 70) ∧
      (diabetes_risk_level p = "Low" ↔ diabetes_risk_percentage p < 40)) ∧
    (0 ≤ heart_risk_percentage p ∧ heart_risk_percentage p < 100 ∧
      (heart_risk_level p = "High" ↔ 70 ≤ heart_risk_percentage p) ∧
      (heart_risk_level p = "Medium" ↔
        40 ≤ heart_risk_percentage p ∧ heart_risk_percentage p < 70) ∧
      (heart_risk_level p = "Low" ↔ heart_risk_percentage p < 40)) ∧
    (0 ≤ hypertension_risk_percentage p ∧ hypertension_risk_percentage p < 100 ∧
      (hypertension_risk_level p = "High" ↔ 70 ≤ hypertension_risk_percentage p) ∧
      (hypertension_risk_level p = "Medium" ↔
        40 ≤ hypertension_risk_percentage p ∧ hypertension_risk_percentage p < 70) ∧
      (hypertension_risk_level p = "Low" ↔ hypertension_risk_percentage p < 40)) := by
  have hd := sigmoid_mem ((diabetes_total_score p : ℚ) : ℝ) 8
  have hh := sigmoid_mem ((heart_total_score p : ℚ) : ℝ) 10
  have hy := sigmoid_mem ((hypertension_total_score p : ℚ) : ℝ) 8
  exact ⟨⟨hd.1.le, hd.2, (risk_level_of_spec _).1, (risk_level_of_spec _).2.1,
      (risk_level_of_spec _).2.2⟩,
    ⟨hh.1.le, hh.2, (risk_level_of_spec _).1, (risk_level_of_spec _).2.1,
      (risk_level_of_spec _).2.2⟩,
    ⟨hy.1.le, hy.2, (risk_level_of_spec _).1, (risk_level_of_spec _).2.1,
      (risk_level_of_spec _).2.2⟩⟩

/-- Claim C3: the sigmoid transform computes 100 / (1 + e^(-score/scale)), is
strictly increasing in the score, maps score 0 to exactly 50, stays strictly
between 0 and 100, and tends to 0 at negative infinity and to 100 at
positive infinity. -/
theorem C3_sigmoid_normalizer (scale : ℝ) (hs : 0 < scale) :
    (∀ s : ℝ, sigmoid_transform s scale = 100 / (1 + Real.exp (-s / scale))) ∧
    StrictMono (fun s : ℝ => sigmoid_transform s scale) ∧
    sigmoid_transform 0 scale = 50 ∧
    (∀ s : ℝ, 0 < sigmoid_transform s scale ∧ sigmoid_transform s scale < 100) ∧
    Filter.Tendsto (fun s : ℝ => sigmoid_transform s scale) Filter.atBot (nhds 0) ∧
    Filter.Tendsto (fun s : ℝ => sigmoid_transform s scale) Filter.atTop (nhds 100) := by
  refine ⟨fun s => rfl, ?_, ?_, fun s => sigmoid_mem s scale, ?_, ?_⟩
  · intro a b hab
    have h0 : -b / scale < -a / scale := (div_lt_div_iff_of_pos_right hs).mpr (neg_lt_neg hab)
    have hexp := Real.exp_lt_exp.mpr h0
    simp only [sigmoid_transform]
    rw [div_lt_div_iff₀ (by positivity) (by positivity)]
    nlinarith
  · norm_num [sigmoid_transform, Real.exp_zero]
  · have h1 : Filter.Tendsto (fun s : ℝ => -s / scale) Filter.atBot Filter.atTop :=
      Filter.Tendsto.atTop_div_const hs Filter.tendsto_neg_atBot_atTop
    have h2 : Filter.Tendsto (fun s : ℝ => Real.exp (-s / scale)) Filter.atBot Filter.atTop :=
      Real.tendsto_exp_atTop.comp h1
    have h3 : Filter.Tendsto (fun s : ℝ => 1 + Real.exp (-s / scale)) Filter.atBot
        Filter.atTop := Filter.tendsto_atTop_add_const_left _ 1 h2
    exact Filter.Tendsto.div_atTop tendsto_const_nhds h3
  · have h1 : Filter.Tendsto (fun s : ℝ => -s / scale) Filter.atTop Filter.atBot :=
      Filter.Tendsto.atBot_div_const hs Filter.tendsto_neg_atTop_atBot
    have h2 : Filter.Tendsto (fun s : ℝ => Real.exp (-s / scale)) Filter.atTop (nhds 0) :=
      Real.tendsto_exp_atBot.comp h1
    have h3 : Filter.Tendsto (fun s : ℝ => 1 + Real.exp (-s / scale)) Filter.atTop
        (nhds 1) := by
      have h := Filter.Tendsto.const_add (1 : ℝ) h2
      simpa using h
    have h4 := Filter.Tendsto.div (a := (100 : ℝ)) tendsto_const_nhds h3 one_ne_zero
    simpa using h4

/-- Witness for C3: the conclusion holds at the concrete scale 8 used by the
diabetes and hypertension scorers. -/
theorem C3_sigmoid_normalizer_witness :
    (0 : ℝ) < 8 ∧
    ((∀ s : ℝ, sigmoid_transform s 8 = 100 / (1 + Real.exp (-s / 8))) ∧
    StrictMono (fun s : ℝ => sigmoid_transform s 8) ∧
    sigmoid_transform 0 8 = 50 ∧
    (∀ s : ℝ, 0 < sigmoid_transform s 8 ∧ sigmoid_transform s 8 < 100) ∧
    Filter.Tendsto (fun s : ℝ => sigmoid_transform s 8) Filter.atBot (nhds 0) ∧
    Filter.Tendsto (fun s : ℝ => sigmoid_transform s 8) Filter.atTop (nhds 100)) :=
  ⟨by norm_num, C3_sigmoid_normalizer 8 (by norm_num)⟩

/-- Claim C10: every factor of the diabetes breakdown is non-negative, so the
diabetes total score is non-negative, the diabetes risk percentage is at
least 50, and the diabetes risk level is never Low. -/
theorem C10_diabetes_never_low (p : PatientRecord) :
    0 ≤ diabetes_age_risk p.age ∧ 0 ≤ diabetes_bmi_risk p.bmi ∧
    0 ≤ diabetes_glucose_risk p.glucose ∧ 0 ≤ diabetes_bp_risk p.systolic_bp ∧
    0 ≤ diabetes_exercise_risk p.exercise_days ∧ 0 ≤ diabetes_smoking_risk p.smoking ∧
    0 ≤ diabetes_family_risk p.family_diabetes ∧ 0 ≤ diabetes_hdl_risk p.hdl ∧
    0 ≤ diabetes_total_score p ∧ 50 ≤ diabetes_risk_percentage p ∧
    diabetes_risk_level p ≠ "Low" := by
  have ha : 0 ≤ diabetes_age_risk p.age := by
    unfold diabetes_age_risk; split_ifs <;> norm_num
  have hb : 0 ≤ diabetes_bmi_risk p.bmi := by
    unfold diabetes_bmi_risk; split_ifs <;> norm_num
  have hg : 0 ≤ diabetes_glucose_risk p.glucose := by
    unfold diabetes_glucose_risk; split_ifs <;> norm_num
  have hbp : 0 ≤ diabetes_bp_risk p.systolic_bp := by
    unfold diabetes_bp_risk; split_ifs <;> norm_num
  have hex : 0 ≤ diabetes_exercise_risk p.exercise_days := by
    unfold diabetes_exercise_risk; split_ifs <;> norm_num
  have hs : 0 ≤ diabetes_smoking_risk p.smoking := by
    unfold diabetes_smoking_risk; split_ifs <;> norm_num
  have hf : 0 ≤ diabetes_family_risk p.family_diabetes := by
    unfold diabetes_family_risk; split_ifs <;> norm_num
  have hh : 0 ≤ diabetes_hdl_risk p.hdl := by
    unfold diabetes_hdl_risk; split_ifs <;> norm_num
  have ht : 0 ≤ diabetes_total_score p := by
    unfold diabetes_total_score; linarith
  have hp : 50 ≤ diabetes_risk_percentage p := by
    have hcast : (0 : ℝ) ≤ ((diabetes_total_score p : ℚ) : ℝ) := by exact_mod_cast ht
    exact sigmoid_ge_fifty _ 8 hcast (by norm_num)
  refine ⟨ha, hb, hg, hbp, hex, hs, hf, hh, ht, hp, ?_⟩
  intro hL
  have := (risk_level_of_spec (diabetes_risk_percentage p)).2.2.mp hL
  linarith

/-- Claim C2: the spec's boundary record produces a diabetes total score of
23.5, a risk percentage of exactly 100 / (1 + e^(-23.5/8)), and risk level
High. -/
theorem C2_boundary_record :
    diabetes_total_score boundary_patient = 23.5 ∧
    diabetes_risk_percentage boundary_patient =
      100 / (1 + Real.exp (-(23.5 : ℝ) / 8)) ∧
    diabetes_risk_level boundary_patient = "High" := by
  have htot : diabetes_total_score boundary_patient = 23.5 := by
    norm_num [diabetes_total_score, boundary_patient, diabetes_age_risk, diabetes_bmi_risk,
      diabetes_glucose_risk, diabetes_bp_risk, diabetes_exercise_risk, diabetes_smoking_risk,
      diabetes_family_risk, diabetes_hdl_risk]
  have hpct : diabetes_risk_percentage boundary_patient =
      100 / (1 + Real.exp (-(23.5 : ℝ) / 8)) := by
    unfold diabetes_risk_percentage sigmoid_transform
    rw [htot]
    norm_num
  have h1 : (7 : ℝ) / 3 ≤ Real.exp 2.9375 := by
    have h := Real.add_one_le_exp (2.9375 : ℝ)
    linarith
  have h2 : Real.exp (-(23.5 : ℝ) / 8) ≤ 3 / 7 := by
    have he : (-(23.5 : ℝ) / 8) = -(2.9375 : ℝ) := by norm_num
    rw [he, Real.exp_neg]
    have h3 := inv_anti₀ (by norm_num : (0 : ℝ) < 7 / 3) h1
    calc (Real.exp 2.9375)⁻¹ ≤ ((7 : ℝ) / 3)⁻¹ := h3
      _ = 3 / 7 := by norm_num
  have hhigh : 70 ≤ diabetes_risk_percentage boundary_patient := by
    rw [hpct]
    have hepos : 0 < Real.exp (-(23.5 : ℝ) / 8) := Real.exp_pos _
    rw [le_div_iff₀ (by linarith)]
    nlinarith
  exact ⟨htot, hpct, (risk_level_of_spec _).1.mpr hhigh⟩

/-- Claim C4: raising glucose while holding every other field fixed never
decreases the diabetes total score. -/
theorem C4_glucose_monotonicity (p : PatientRecord) (g₁ g₂ : ℚ) (h : g₁ ≤ g₂) :
    diabetes_total_score { p with glucose := g₁ } ≤
      diabetes_total_score { p with glucose := g₂ } := by
  have hg := diabetes_glucose_risk_mono h
  unfold diabetes_total_score
  dsimp only
  linarith

/-- Witness for C4: the monotonicity at a concrete record and the glucose
pair 90 and 130. -/
theorem C4_glucose_monotonicity_witness :
    (90 : ℚ) ≤ 130 ∧
    diabetes_total_score { sample_patient with glucose := 90 } ≤
      diabetes_total_score { sample_patient with glucose := 130 } :=
  ⟨by norm_num, C4_glucose_monotonicity sample_patient 90 130 (by norm_num)⟩

/-- Claim C5 evaluation: the age_group binning of app.py uses right-closed
pd.cut intervals, so age 30 lands in the band labeled below 30, age 50 in
the 30-50 band, age 70 in the 50-70 band, and an age above 100 gets no band,
while the spec's left-inclusive bands put 30 in 30-50, 50 in 50-70 and 70 in
the open-ended top band. -/
theorem C5_age_band_boundaries :
    age_group 30 = some "<30" ∧ age_group 50 = some "30-50" ∧
    age_group 70 = some "50-70" ∧ age_group 105 = none ∧
    age_group_spec 30 = "30-50" ∧ age_group_spec 50 = "50-70" ∧
    age_group_spec 70 = "70+" := by decide

/-- Claim C6: a record whose systolic pressure is not above its diastolic
pressure fails validation with a non-empty reason message, and the app gate
produces no assessment for it (no risk scorer runs). -/
theorem C6_bp_validation_gate (p : PatientRecord)
    (h : p.systolic_bp ≤ p.diastolic_bp) :
    (validate_health_metrics p).valid = false ∧
    (validate_health_metrics p).message ≠ "" ∧ submit_patient p = none := by
  have hvm : (validate_health_metrics p).valid = false ∧
      (validate_health_metrics p).message ≠ "" := by
    unfold validate_health_metrics
    split_ifs with h1 h2 h3 h4
    all_goals exact ⟨rfl, by decide⟩
  refine ⟨hvm.1, hvm.2, ?_⟩
  simp [submit_patient, hvm.1]

/-- Witness for C6: a concrete record with systolic 80 and diastolic 90 is
rejected and produces no assessment. -/
theorem C6_bp_validation_gate_witness :
    ({ sample_patient with systolic_bp := 80, diastolic_bp := 90 } :
        PatientRecord).systolic_bp ≤
      ({ sample_patient with systolic_bp := 80, diastolic_bp := 90 } :
        PatientRecord).diastolic_bp ∧
    ((validate_health_metrics
        { sample_patient with systolic_bp := 80, diastolic_bp := 90 }).valid = false ∧
      (validate_health_metrics
        { sample_patient with systolic_bp := 80, diastolic_bp := 90 }).message ≠ "" ∧
      submit_patient
        { sample_patient with systolic_bp := 80, diastolic_bp := 90 } = none) :=
  ⟨by decide, C6_bp_validation_gate _ (by decide)⟩

/-- Claim C7: in the heart-disease scorer, 7 exercise days contributes
exactly -1 and HDL 65 contributes exactly -1, and a record with those values
has a strictly lower total score than the same record with 1 exercise day
and HDL 45. -/
theorem C7_protective_factors :
    hd_exercise_risk 7 = -1 ∧ hd_hdl_risk 65 = -1 ∧
    ∀ p : PatientRecord,
      heart_total_score { p with exercise_days := 7, hdl := 65 } <
        heart_total_score { p with exercise_days := 1, hdl := 45 } := by
  refine ⟨by norm_num [hd_exercise_risk], by norm_num [hd_hdl_risk], fun p => ?_⟩
  unfold heart_total_score
  dsimp only
  have h1 : hd_exercise_risk 7 = -1 := by norm_num [hd_exercise_risk]
  have h2 : hd_hdl_risk 65 = -1 := by norm_num [hd_hdl_risk]
  have h3 : hd_exercise_risk 1 = 1.5 := by norm_num [hd_exercise_risk]
  have h4 : hd_hdl_risk 45 = 0 := by norm_num [hd_hdl_risk]
  rw [h1, h2, h3, h4]
  linarith

/-- Claim C8: the population overall risk-tier label is the classifier
applied to the maximum of the three condition percentages, and swapping the
order of the compared conditions does not change it. -/
theorem C8_overall_tier_is_tier_of_max (d h ht : ℝ) :
    overall_risk_label d h ht = risk_level_of (max d (max h ht)) ∧
    overall_risk_label d h ht = overall_risk_label h d ht ∧
    overall_risk_label d h ht = overall_risk_label d ht h := by
  have key : ∀ x y z : ℝ, overall_risk_label x y z = risk_level_of (max (max x y) z) :=
    fun _ _ _ => rfl
  refine ⟨?_, ?_, ?_⟩
  · rw [key, max_assoc]
  · rw [key, key, max_comm d h]
  · rw [key, key, max_assoc, max_comm h ht, ← max_assoc]

/-- Claim C9: the heart-disease age and gender factor scores every gender
other than Male, including Other, with the female thresholds (3 from age 65,
2 from age 55, else 0). -/
theorem C9_nonmale_female_thresholds (g : String) (age : ℚ) (h : g ≠ "Male") :
    hd_age_gender_risk g age =
      (if age ≥ 65 then 3 else if age ≥ 55 then 2 else 0) ∧
    hd_age_gender_risk g age = hd_age_gender_risk "Female" age := by
  have h2 : ("Female" : String) ≠ "Male" := by decide
  unfold hd_age_gender_risk
  rw [if_neg h, if_neg h2]
  exact ⟨rfl, rfl⟩

/-- Witness for C9: the gender value Other at age 70 is scored exactly like
Female. -/
theorem C9_nonmale_female_thresholds_witness :
    ("Other" : String) ≠ "Male" ∧
    (hd_age_gender_risk "Other" 70 =
      (if (70 : ℚ) ≥ 65 then 3 else if (70 : ℚ) ≥ 55 then 2 else 0) ∧
    hd_age_gender_risk "Other" 70 = hd_age_gender_risk "Female" 70) :=
  ⟨by decide, C9_nonmale_female_thresholds "Other" 70 (by decide)⟩

end HealthAI
